import Mathlib

/-!
Verification of the process-supervision core of the yepanywhere desktop app.

The definitions below are a shallow embedding of
`src/packages/desktop/src-tauri/src/server.rs` (server supervisor) and
`src/packages/desktop/src-tauri/src/pty.rs` (PTY bridge).  OS-level
nondeterminism (spawn outcomes, the random bytes drawn for the token, the
ephemeral port handed out by the kernel, I/O errors) is passed in through
explicit environment records; each Rust command becomes a pure function from
an environment and the current shared state to a result, the new shared
state, and a record of the externally visible effects it performed
(commands spawned, signals sent, kill attempts).
-/

namespace YepAnywhere

/-- An OS process handle (`tokio::process::Child`), identified by its pid. -/
structure Child where
  pid : Nat
deriving DecidableEq, Repr

/-- The `ServerState` from server.rs: the process-wide supervisor singleton.
Each field sits under its own `Mutex`; lock poisoning is not modelled. -/
structure ServerState where
  child : Option Child
  desktop_token : Option String
  port : Option Nat
deriving DecidableEq, Repr

/-- The `ServerState::new()`. -/
def ServerState.new : ServerState :=
  { child := none, desktop_token := none, port := none }

/-- The spec's data-model invariant for `ServerState`:
`token` and `port` are both `Some` iff `child` is `Some`. -/
def ServerState.invariant (st : ServerState) : Prop :=
  (st.desktop_token.isSome = true ∧ st.port.isSome = true) ↔ st.child.isSome = true

instance (st : ServerState) : Decidable st.invariant := by
  unfold ServerState.invariant; infer_instance

/-- One lowercase hex digit, as produced by Rust's `{:x}` formatting:
digits `0`-`9` then letters `a`-`f`. -/
def hexDigit (n : Nat) : Char :=
  if n < 10 then Char.ofNat (48 + n) else Char.ofNat (87 + n)

/-- The `format!("{b:02x}")` for a byte: two lowercase hex digits. -/
def byteToHex (b : Nat) : List Char :=
  [hexDigit (b / 16), hexDigit (b % 16)]

/-- The `generate_token()` from server.rs, with the 32 random bytes drawn from
`rand::thread_rng` passed in explicitly:
`bytes.iter().map(|b| format!("{b:02x}")).collect()`. -/
def generate_token (bytes : List Nat) : String :=
  String.mk (List.flatten (bytes.map byteToHex))

/-- A configured `tokio::process::Command` as observed at the spawn call:
program, arguments, working directory, the environment variables explicitly
injected by the supervisor, and the flags set by `setup_child_process`. -/
structure Command where
  program : String
  args : List String
  current_dir : Option String
  envVars : List (String × String)
  kill_on_drop : Bool
  process_group_zero : Bool
deriving DecidableEq, Repr

/-- Environment of one `start_server` call: the configuration read, the
outcomes of the fallible OS steps, and the random bytes for the token. -/
structure StartEnv where
  /-- The `config::load_config().port`: the user's port override. -/
  cfgPort : Option Nat
  /-- Outcome of `TcpListener::bind("127.0.0.1:0")` + `local_addr()`:
  the OS-assigned ephemeral port, or the OS error string. -/
  bindPort : Except String Nat
  /-- The `config::data_dir()` rendered as a string. -/
  data_dir : String
  /-- The 32 random bytes drawn by `generate_token`. -/
  tokenBytes : List Nat
  /-- The `config::dev_dir()`: `Some` iff `YEP_DEV_DIR` is set (dev mode). -/
  dev_dir : Option String
  /-- The `SHELL` environment variable, if present. -/
  shellVar : Option String
  /-- Outcome of `bun_path(&app)` (prod mode): resolved path or error. -/
  bunPath : Except String String
  /-- Outcome of `server_entry()` (prod mode): resolved path or error. -/
  serverEntry : Except String String
  /-- Outcome of `cmd.spawn()`: the OS child handle or the OS error string. -/
  spawnResult : Except String Child
deriving Repr

/-- Port resolution inside `start_server`: the user override from the
config, else the ephemeral port obtained by binding `127.0.0.1:0` and
releasing the listener. -/
def resolved_port (env : StartEnv) : Except String Nat :=
  match env.cfgPort with
  | some p => Except.ok p
  | none =>
    match env.bindPort with
    | Except.error e => Except.error ("Failed to find free port: " ++ e)
    | Except.ok p => Except.ok p

/-- The `start_server` from server.rs.  Returns the command result, the new
`ServerState`, and the `Command` handed to `spawn` (if the spawn step was
reached), mirroring the source line by line. -/
def start_server (env : StartEnv) (st : ServerState) :
    Except String Unit × ServerState × Option Command :=
  if st.child.isSome then
    (Except.error "Server is already running", st, none)
  else
    let token := generate_token env.tokenBytes
    match resolved_port env with
    | Except.error e => (Except.error e, st, none)
    | Except.ok port =>
      match env.dev_dir with
      | some dev_dir =>
        -- Dev mode: run `pnpm dev` from local source via a login shell.
        let shell := env.shellVar.getD "/bin/zsh"
        let cmd : Command :=
          { program := shell
            args := ["--login", "-c", "exec pnpm dev"]
            current_dir := some dev_dir
            envVars :=
              [("PORT", toString port),
               ("YEP_ANYWHERE_DATA_DIR", env.data_dir),
               ("DESKTOP_AUTH_TOKEN", token)]
            kill_on_drop := true
            process_group_zero := true }
        match env.spawnResult with
        | Except.error e =>
          (Except.error ("Failed to start dev server in " ++ dev_dir ++ ": " ++ e),
            st, some cmd)
        | Except.ok child =>
          (Except.ok (),
            { child := some child, desktop_token := some token, port := some port },
            some cmd)
      | none =>
        -- Production mode: bundled bun + installed npm package.
        match env.bunPath with
        | Except.error e => (Except.error e, st, none)
        | Except.ok bun =>
          match env.serverEntry with
          | Except.error e => (Except.error e, st, none)
          | Except.ok entry =>
            let cmd : Command :=
              { program := bun
                args := ["run", entry]
                current_dir := none
                envVars :=
                  [("NODE_ENV", "production"),
                   ("PORT", toString port),
                   ("YEP_ANYWHERE_DATA_DIR", env.data_dir),
                   ("DESKTOP_AUTH_TOKEN", token)]
                kill_on_drop := true
                process_group_zero := true }
            match env.spawnResult with
            | Except.error e =>
              (Except.error ("Failed to start server: " ++ e), st, some cmd)
            | Except.ok child =>
              (Except.ok (),
                { child := some child, desktop_token := some token, port := some port },
                some cmd)

/-- Environment of one `stop_server` call: the outcome of
`child.kill().await` on the extracted child, if one is present. -/
structure StopEnv where
  killResult : Except String Unit
deriving Repr

/-- The `stop_server` from server.rs.  The third component lists the children on
which a kill-and-wait was attempted (the "process operations" performed). -/
def stop_server (env : StopEnv) (st : ServerState) :
    Except String Unit × ServerState × List Child :=
  -- Take the child out, then clear token and port unconditionally.
  let child := st.child
  let cleared : ServerState := { child := none, desktop_token := none, port := none }
  match child with
  | none => (Except.ok (), cleared, [])
  | some c =>
    match env.killResult with
    | Except.error e => (Except.error e, cleared, [c])
    | Except.ok _ => (Except.ok (), cleared, [c])

/-- Environment of one `get_server_status` call: the outcome of
`child.try_wait()` on a stored child (`Ok(Some _)` = exited,
`Ok(None)` = still running, `Err` = poll failed). -/
structure StatusEnv where
  tryWait : Except String (Option Unit)
deriving Repr

/-- The `get_server_status` from server.rs. -/
def get_server_status (env : StatusEnv) (st : ServerState) :
    Except String String × ServerState :=
  match st.child with
  | none => (Except.ok "stopped", st)
  | some _ =>
    match env.tryWait with
    | Except.ok (some _) => (Except.ok "stopped", { st with child := none })
    | Except.ok none => (Except.ok "running", st)
    | Except.error e => (Except.error e, st)

/-- A termination request issued by `kill_sync`: either `SIGTERM` to the
negative pid (the whole process group, unix) or `start_kill` on the child. -/
inductive TermSignal where
  | sigtermGroup (pid : Nat)
  | startKill (pid : Nat)
deriving DecidableEq, Repr

/-- Environment of one `kill_sync` call. -/
structure KillSyncEnv where
  /-- The `child.id()`: `None` once the child has been reaped. -/
  childId : Option Nat
  /-- Whether the build is `cfg(unix)`. -/
  unix : Bool
deriving Repr

/-- The `ServerState::kill_sync` from server.rs.  Returns the new state and the
signals sent. -/
def kill_sync (env : KillSyncEnv) (st : ServerState) :
    ServerState × List TermSignal :=
  match st.child with
  | none => ({ st with child := none }, [])
  | some _ =>
    let sigs :=
      match env.childId with
      | none => []
      | some pid =>
        if env.unix then [TermSignal.sigtermGroup pid] else [TermSignal.startKill pid]
    ({ st with child := none }, sigs)

/-- The `get_desktop_token` from server.rs. -/
def get_desktop_token (st : ServerState) : Except String (Option String) :=
  Except.ok st.desktop_token

/-- The `get_server_port` from server.rs. -/
def get_server_port (st : ServerState) : Except String (Option Nat) :=
  Except.ok st.port

/-! ## PTY bridge (`pty.rs`) -/

/-- The `PtyState` from pty.rs: the process-wide terminal-session singleton.
The boxed writer and master handles are abstracted to opaque handle ids. -/
structure PtyState where
  writer : Option Nat
  master : Option Nat
  alive : Bool
deriving DecidableEq, Repr

/-- The `PtyState::new()`. -/
def PtyState.new : PtyState :=
  { writer := none, master := none, alive := false }

/-- The `portable_pty::PtySize`. -/
structure PtySize where
  rows : Nat
  cols : Nat
  pixel_width : Nat
  pixel_height : Nat
deriving DecidableEq, Repr

/-- A `portable_pty::CommandBuilder` as handed to `slave.spawn_command`. -/
structure CommandBuilder where
  program : String
  args : List String
  cwd : Option String
deriving DecidableEq, Repr

/-- A notification emitted to the UI layer (`app.emit`). -/
inductive PtyEvent where
  | output (data : String)
  | exit
deriving DecidableEq, Repr

/-- Path join, with paths modelled as `/`-separated strings. -/
def pathJoin (a b : String) : String := a ++ "/" ++ b

/-- The command-resolution `match` inside `spawn_pty`: the known command
`"claude"` is rewritten to run its installed cli.js under the bundled bun
with the home directory as cwd; any other command runs as given. -/
def resolve_pty_command (bun data_dir : String) (home_dir : Option String)
    (command : String) (args : List String) : CommandBuilder :=
  match command with
  | "claude" =>
    let script :=
      pathJoin (pathJoin (pathJoin (pathJoin data_dir "node_modules")
        "@anthropic-ai") "claude-code") "cli.js"
    { program := bun, args := script :: args, cwd := some (home_dir.getD "/") }
  | _ => { program := command, args := args, cwd := none }

/-- Environment of one `spawn_pty` call: resolution inputs and the outcomes
of the fallible platform steps, in source order. -/
structure PtySpawnEnv where
  /-- Outcome of `pty_system.openpty(...)`. -/
  openpty : Except String Unit
  /-- Outcome of `std::env::current_exe()`. -/
  current_exe : Except String String
  /-- The `exe.parent()`: the executable's directory, if it has one. -/
  exe_parent : Option String
  /-- Whether the build is `cfg(windows)`. -/
  windows : Bool
  /-- The `config::data_dir()` rendered as a string. -/
  data_dir : String
  /-- The `dirs::home_dir()` rendered as a string. -/
  home_dir : Option String
  /-- Outcome of `pair.slave.spawn_command(cmd)`. -/
  spawn_command : Except String Unit
  /-- Outcome of `pair.master.take_writer()`: a writer handle id or error. -/
  take_writer : Except String Nat
  /-- Outcome of `pair.master.try_clone_reader()`: a reader handle id or error. -/
  try_clone_reader : Except String Nat
deriving Repr

/-- The bun-sidecar resolution block inside `spawn_pty` (no existence
check, unlike `bun_path` in server.rs). -/
def pty_bun (env : PtySpawnEnv) : Except String String :=
  match env.current_exe with
  | Except.error e => Except.error ("Could not resolve executable: " ++ e)
  | Except.ok _ =>
    match env.exe_parent with
    | none => Except.error "Could not resolve executable directory"
    | some dir =>
      Except.ok (pathJoin dir (if env.windows then "bun.exe" else "bun"))

/-- The `spawn_pty` from pty.rs.  Returns the command result, the new
`PtyState`, the geometry requested from `openpty`, and the
`CommandBuilder` handed to `spawn_command` (if that step was reached). -/
def spawn_pty (env : PtySpawnEnv) (st : PtyState)
    (command : String) (args : List String) :
    Except String Unit × PtyState × Option PtySize × Option CommandBuilder :=
  let requested : PtySize :=
    { rows := 24, cols := 80, pixel_width := 0, pixel_height := 0 }
  match env.openpty with
  | Except.error e => (Except.error ("Failed to open PTY: " ++ e), st, none, none)
  | Except.ok _ =>
    match pty_bun env with
    | Except.error e => (Except.error e, st, some requested, none)
    | Except.ok bun =>
      let cmd := resolve_pty_command bun env.data_dir env.home_dir command args
      match env.spawn_command with
      | Except.error e =>
        (Except.error ("Failed to spawn command: " ++ e), st, some requested, some cmd)
      | Except.ok _ =>
        match env.take_writer with
        | Except.error e =>
          (Except.error ("Failed to get PTY writer: " ++ e), st, some requested, some cmd)
        | Except.ok w =>
          match env.try_clone_reader with
          | Except.error e =>
            (Except.error ("Failed to get PTY reader: " ++ e), st, some requested, some cmd)
          | Except.ok _ =>
            (Except.ok (),
              { writer := some w, master := some 0, alive := true },
              some requested, some cmd)

/-- Environment of one `write_pty` call: the outcomes of
`writer.write_all` and `writer.flush`. -/
structure WriteEnv where
  writeAll : Except String Unit
  flush : Except String Unit
deriving Repr

/-- The `write_pty` from pty.rs.  The second component lists the byte chunks
delivered to the PTY writer. -/
def write_pty (env : WriteEnv) (st : PtyState) (data : String) :
    Except String Unit × List String :=
  match st.writer with
  | none => (Except.error "No PTY session active", [])
  | some _ =>
    match env.writeAll with
    | Except.error e => (Except.error ("Failed to write to PTY: " ++ e), [])
    | Except.ok _ =>
      match env.flush with
      | Except.error e => (Except.error ("Failed to flush PTY: " ++ e), [data])
      | Except.ok _ => (Except.ok (), [data])

/-- Environment of one `resize_pty` call: the outcome of `master.resize`. -/
structure ResizeEnv where
  resize : Except String Unit
deriving Repr

/-- The `resize_pty` from pty.rs.  The second component records the geometry
requested from the master handle, when one is stored. -/
def resize_pty (env : ResizeEnv) (st : PtyState) (cols rows : Nat) :
    Except String Unit × Option PtySize :=
  match st.master with
  | none => (Except.ok (), none)
  | some _ =>
    let size : PtySize :=
      { rows := rows, cols := cols, pixel_width := 0, pixel_height := 0 }
    match env.resize with
    | Except.error e => (Except.error ("Failed to resize PTY: " ++ e), some size)
    | Except.ok _ => (Except.ok (), some size)

/-- The `kill_pty` from pty.rs.  Returns the command result, the new `PtyState`,
the events it emits, and the termination signals it sends (both none: the
body only clears the three fields). -/
def kill_pty (st : PtyState) :
    Except String Unit × PtyState × List PtyEvent × List TermSignal :=
  let _ := st
  (Except.ok (), { writer := none, master := none, alive := false }, [], [])

/-! ## Concrete fixtures used by witnesses -/

/-- A production-mode start environment with every step succeeding. -/
def envStart0 : StartEnv :=
  { cfgPort := none
    bindPort := Except.ok 3000
    data_dir := "/home/u/.yep-anywhere-desktop"
    tokenBytes := List.replicate 32 0
    dev_dir := none
    shellVar := none
    bunPath := Except.ok "/app/bun"
    serverEntry := Except.ok "/home/u/.yep-anywhere-desktop/node_modules/yepanywhere/dist/index.js"
    spawnResult := Except.ok ⟨7⟩ }

/-- A supervisor state with a running child. -/
def stRunning0 : ServerState :=
  { child := some ⟨5⟩, desktop_token := some "tok", port := some 3000 }

/-! ## Claims about the server supervisor -/

/-- C2: if a child handle already exists, `start_server` returns the
`AlreadyRunning` error and leaves child, token and port exactly as they
were, spawning nothing. -/
theorem start_while_running_no_effect (env : StartEnv) (st : ServerState)
    (h : st.child.isSome = true) :
    start_server env st = (Except.error "Server is already running", st, none) := by
  unfold start_server
  simp [h]

/-- Witness for C2 at a concrete running state. -/
theorem start_while_running_no_effect_witness :
    start_server envStart0 stRunning0 =
      (Except.error "Server is already running", stRunning0, none) :=
  start_while_running_no_effect envStart0 stRunning0 rfl

/-- C3: `stop_server` with no child running returns success and attempts no
kill, and in every case the resulting state has token and port (and child)
cleared. -/
theorem stop_idempotent_and_clears (env : StopEnv) (st : ServerState) :
    (st.child = none → stop_server env st = (Except.ok (), ServerState.new, [])) ∧
    (stop_server env st).2.1 = ServerState.new := by
  unfold stop_server ServerState.new
  cases st.child <;> cases env.killResult <;> simp

/-- Witness for C3: stopping from the initial (stopped) state. -/
theorem stop_idempotent_and_clears_witness :
    stop_server ⟨Except.ok ()⟩ ServerState.new = (Except.ok (), ServerState.new, []) :=
  (stop_idempotent_and_clears ⟨Except.ok ()⟩ ServerState.new).1 rfl

/-- C9: if a child is running and the terminate-and-wait fails,
`stop_server` returns the error, yet child, token and port are already all
cleared. -/
theorem stop_kill_error_state_cleared (env : StopEnv) (st : ServerState)
    (c : Child) (e : String) (hc : st.child = some c)
    (hk : env.killResult = Except.error e) :
    stop_server env st = (Except.error e, ServerState.new, [c]) := by
  unfold stop_server ServerState.new
  simp [hc, hk]

/-- Witness for C9 at a concrete running state with a failing kill. -/
theorem stop_kill_error_state_cleared_witness :
    stop_server ⟨Except.error "kill failed"⟩ stRunning0 =
      (Except.error "kill failed", ServerState.new, [⟨5⟩]) :=
  stop_kill_error_state_cleared ⟨Except.error "kill failed"⟩ stRunning0 ⟨5⟩
    "kill failed" rfl rfl

/-- C10: if the non-blocking liveness poll errors, `get_server_status`
returns that error with the whole state unchanged; a stored child is
cleared only when the poll succeeds and reports an exit; token and port are
never touched. -/
theorem status_poll_error_preserves_state (env : StatusEnv) (st : ServerState) :
    (∀ e, st.child.isSome = true → env.tryWait = Except.error e →
      get_server_status env st = (Except.error e, st)) ∧
    (st.child.isSome = true → (get_server_status env st).2.child = none →
      env.tryWait = Except.ok (some ())) ∧
    (get_server_status env st).2.desktop_token = st.desktop_token ∧
    (get_server_status env st).2.port = st.port := by
  obtain ⟨c, t, p⟩ := st
  unfold get_server_status
  cases c with
  | none => simp
  | some c =>
    rcases h : env.tryWait with e | o
    · simp
    · cases o <;> simp

/-- Witness for C10 at a concrete running state with a failing poll. -/
theorem status_poll_error_preserves_state_witness :
    get_server_status ⟨Except.error "io error"⟩ stRunning0 =
      (Except.error "io error", stRunning0) :=
  (status_poll_error_preserves_state ⟨Except.error "io error"⟩ stRunning0).1
    "io error" rfl rfl

/-- C1 counterexample: from a state satisfying the token/port/child
invariant, `kill_sync` clears only the child handle and leaves token and
port set, so the invariant does not hold after every supervisor operation. -/
theorem invariant_broken_after_kill_sync :
    ServerState.invariant stRunning0 ∧
    (kill_sync ⟨some 5, true⟩ stRunning0).1 =
      { child := none, desktop_token := some "tok", port := some 3000 } ∧
    ¬ ServerState.invariant (kill_sync ⟨some 5, true⟩ stRunning0).1 :=
  ⟨by decide, rfl, by decide⟩

/-- C1 (amended): the invariant is preserved by `start_server` and by
`stop_server`, but `kill_sync` and a `get_server_status` call that reaps an
exited child clear only the child handle and leave token and port
untouched, so they can break it. -/
theorem invariant_after_supervisor_ops (env₁ : StartEnv) (env₂ : StopEnv)
    (env₃ : KillSyncEnv) (env₄ : StatusEnv) (st : ServerState)
    (h : st.invariant) :
    (start_server env₁ st).2.1.invariant ∧
    (stop_server env₂ st).2.1.invariant ∧
    ((kill_sync env₃ st).1.child = none ∧
      (kill_sync env₃ st).1.desktop_token = st.desktop_token ∧
      (kill_sync env₃ st).1.port = st.port) ∧
    ((get_server_status env₄ st).2.desktop_token = st.desktop_token ∧
      (get_server_status env₄ st).2.port = st.port) := by
  refine ⟨?_, ?_, ?_, ?_⟩
  · unfold start_server
    split
    · simpa using h
    · repeat' split
      all_goals simp_all [ServerState.invariant]
  · unfold stop_server
    cases st.child <;> cases env₂.killResult <;>
      simp [ServerState.invariant]
  · unfold kill_sync
    cases st.child <;> simp
  · unfold get_server_status
    cases st.child with
    | none => simp
    | some c =>
      rcases env₄.tryWait with e | o
      · simp
      · cases o <;> simp

/-- Witness for C1 (amended) at a concrete invariant-satisfying state. -/
theorem invariant_after_supervisor_ops_witness :
    (start_server envStart0 stRunning0).2.1.invariant :=
  (invariant_after_supervisor_ops envStart0 ⟨Except.ok ()⟩ ⟨some 5, true⟩
    ⟨Except.ok none⟩ stRunning0 (by decide)).1

/-- A dev-mode start environment with every step succeeding. -/
def devEnv0 : StartEnv :=
  { cfgPort := some 3000
    bindPort := Except.ok 3000
    data_dir := "/home/u/.yep-anywhere-desktop"
    tokenBytes := List.replicate 32 171
    dev_dir := some "/src/yepanywhere"
    shellVar := some "/bin/bash"
    bunPath := Except.error "unused in dev mode"
    serverEntry := Except.error "unused in dev mode"
    spawnResult := Except.ok ⟨9⟩ }

/-- C5 counterexample: in development mode a successful `start_server`
spawns the backend with exactly the variables `PORT`,
`YEP_ANYWHERE_DATA_DIR` and `DESKTOP_AUTH_TOKEN` — no run-mode indicator
such as `NODE_ENV` is injected. -/
theorem dev_spawn_lacks_run_mode_indicator :
    (start_server devEnv0 ServerState.new).1 = Except.ok () ∧
    ((start_server devEnv0 ServerState.new).2.2.map
      fun cmd => cmd.envVars.map Prod.fst) =
      some ["PORT", "YEP_ANYWHERE_DATA_DIR", "DESKTOP_AUTH_TOKEN"] :=
  ⟨rfl, rfl⟩

/-- The command spawned by `start_server devEnv0` on the stopped state. -/
def devCmd0 : Command :=
  { program := "/bin/bash"
    args := ["--login", "-c", "exec pnpm dev"]
    current_dir := some "/src/yepanywhere"
    envVars :=
      [("PORT", "3000"),
       ("YEP_ANYWHERE_DATA_DIR", "/home/u/.yep-anywhere-desktop"),
       ("DESKTOP_AUTH_TOKEN", generate_token (List.replicate 32 171))]
    kill_on_drop := true
    process_group_zero := true }

/-- C5 (amended): every command `start_server` hands to `spawn` carries in
its environment the resolved listening port (as the value of `PORT`), the
application data directory and the bearer token; the run-mode indicator
`NODE_ENV=production` is present iff the supervisor is in production mode
(no run-mode variable is set in dev mode). -/
theorem spawn_env_contract (env : StartEnv) (st : ServerState) (cmd : Command)
    (h : (start_server env st).2.2 = some cmd) :
    (∃ p, resolved_port env = Except.ok p ∧ ("PORT", toString p) ∈ cmd.envVars) ∧
    ("YEP_ANYWHERE_DATA_DIR", env.data_dir) ∈ cmd.envVars ∧
    ("DESKTOP_AUTH_TOKEN", generate_token env.tokenBytes) ∈ cmd.envVars ∧
    (("NODE_ENV", "production") ∈ cmd.envVars ↔ env.dev_dir = none) := by
  unfold start_server at h
  repeat' split at h
  all_goals simp at h
  all_goals try subst h
  all_goals simp_all [Prod.ext_iff]

/-- Witness for C5 (amended) at the concrete dev-mode spawn. -/
theorem spawn_env_contract_witness :
    ("DESKTOP_AUTH_TOKEN", generate_token devEnv0.tokenBytes) ∈ devCmd0.envVars :=
  (spawn_env_contract devEnv0 ServerState.new devCmd0 rfl).2.2.1

/-! ## Token format and freshness -/

/-- The sixteen characters Rust's `{:x}` formatting can produce. -/
def lowercaseHexChars : List Char := "0123456789abcdef".toList

lemma hexDigit_mem_of_lt (n : Nat) (h : n < 16) : hexDigit n ∈ lowercaseHexChars := by
  have H : ∀ m : Fin 16, hexDigit m.val ∈ lowercaseHexChars := by decide
  exact H ⟨n, h⟩

lemma hexDigit_inj_of_lt (a b : Nat) (ha : a < 16) (hb : b < 16)
    (h : hexDigit a = hexDigit b) : a = b := by
  have H : ∀ x y : Fin 16, hexDigit x.val = hexDigit y.val → x = y := by decide
  simpa using congrArg Fin.val (H ⟨a, ha⟩ ⟨b, hb⟩ h)

lemma byteToHex_inj (a b : Nat) (ha : a < 256) (hb : b < 256)
    (h : byteToHex a = byteToHex b) : a = b := by
  unfold byteToHex at h
  simp at h
  obtain ⟨h1, h2⟩ := h
  have d1 : a / 16 = b / 16 := hexDigit_inj_of_lt _ _ (by omega) (by omega) h1
  have d2 : a % 16 = b % 16 := hexDigit_inj_of_lt _ _ (by omega) (by omega) h2
  omega

lemma flatten_byteToHex_inj : ∀ xs ys : List Nat,
    (∀ b ∈ xs, b < 256) → (∀ b ∈ ys, b < 256) →
    List.flatten (xs.map byteToHex) = List.flatten (ys.map byteToHex) → xs = ys := by
  intro xs
  induction xs with
  | nil =>
    intro ys _ _ h
    cases ys with
    | nil => rfl
    | cons y ys => simp [byteToHex] at h
  | cons x xs ih =>
    intro ys hx hy h
    cases ys with
    | nil => simp [byteToHex] at h
    | cons y ys =>
      simp only [List.map_cons, List.flatten_cons, byteToHex, List.cons_append,
        List.nil_append, List.cons.injEq] at h
      obtain ⟨h1, h2, h3⟩ := h
      have hxy : x = y :=
        byteToHex_inj x y (hx x (by simp)) (hy y (by simp))
          (by simp [byteToHex, h1, h2])
      subst hxy
      have := ih ys (fun b hb => hx b (by simp [hb])) (fun b hb => hy b (by simp [hb])) h3
      rw [this]

lemma generate_token_length (xs : List Nat) :
    (generate_token xs).length = 2 * xs.length := by
  have H : ∀ ys : List Nat, (List.flatten (ys.map byteToHex)).length = 2 * ys.length := by
    intro ys
    induction ys with
    | nil => rfl
    | cons y ys ih =>
      simp only [List.map_cons, List.flatten_cons, List.length_append, ih, byteToHex]
      simp
      omega
  simpa [generate_token, String.length] using H xs

lemma generate_token_chars (xs : List Nat) (hx : ∀ b ∈ xs, b < 256) :
    ∀ c ∈ (generate_token xs).data, c ∈ lowercaseHexChars := by
  intro c hc
  rw [show (generate_token xs).data = List.flatten (xs.map byteToHex) from rfl] at hc
  rw [List.mem_flatten] at hc
  obtain ⟨l, hl, hcl⟩ := hc
  rw [List.mem_map] at hl
  obtain ⟨b, hb, rfl⟩ := hl
  have hb256 := hx b hb
  rcases (by simpa [byteToHex] using hcl : c = hexDigit (b / 16) ∨ c = hexDigit (b % 16))
    with rfl | rfl
  · exact hexDigit_mem_of_lt _ (by omega)
  · exact hexDigit_mem_of_lt _ (by omega)

/-- C4: a token built from 32 bytes is exactly 64 lowercase-hex characters;
the hex rendering is injective, so starts whose random draws differ store
different tokens; and every successful `start_server` stores the token
freshly generated from that call's own random bytes. -/
theorem token_fresh_hex_format (xs ys : List Nat)
    (hx : ∀ b ∈ xs, b < 256) (hxlen : xs.length = 32)
    (hy : ∀ b ∈ ys, b < 256) :
    (generate_token xs).length = 64 ∧
    (∀ c ∈ (generate_token xs).data, c ∈ lowercaseHexChars) ∧
    (xs ≠ ys → generate_token xs ≠ generate_token ys) ∧
    (∀ (env : StartEnv) (st : ServerState), env.tokenBytes = xs →
      (start_server env st).1 = Except.ok () →
      (start_server env st).2.1.desktop_token = some (generate_token xs)) := by
  refine ⟨by rw [generate_token_length, hxlen], generate_token_chars xs hx, ?_, ?_⟩
  · intro hne heq
    exact hne (flatten_byteToHex_inj xs ys hx hy (by injection heq))
  · intro env st he hok
    subst he
    revert hok
    unfold start_server
    repeat' split
    all_goals simp

/-- Witness for C4 at two concrete 32-byte draws. -/
theorem token_fresh_hex_format_witness :
    (generate_token (List.replicate 32 0)).length = 64 ∧
    generate_token (List.replicate 32 0) ≠ generate_token (List.replicate 32 255) :=
  ⟨(token_fresh_hex_format (List.replicate 32 0) (List.replicate 32 255)
      (by decide) (by decide) (by decide)).1,
   (token_fresh_hex_format (List.replicate 32 0) (List.replicate 32 255)
      (by decide) (by decide) (by decide)).2.2.1 (by decide)⟩

/-! ## Claims about the PTY bridge -/

lemma write_err_ne (e : String) :
    "Failed to write to PTY: " ++ e ≠ "No PTY session active" := by
  intro h
  have h2 : ('F' :: ("ailed to write to PTY: ".data ++ e.data)) =
      ('N' :: "o PTY session active".data) := congrArg String.data h
  simp at h2

lemma flush_err_ne (e : String) :
    "Failed to flush PTY: " ++ e ≠ "No PTY session active" := by
  intro h
  have h2 : ('F' :: ("ailed to flush PTY: ".data ++ e.data)) =
      ('N' :: "o PTY session active".data) := congrArg String.data h
  simp at h2

/-- C6: `write_pty` fails with the `NoActiveSession` error iff no writer
handle is stored; with a writer it delivers the whole chunk and flushes,
and an I/O failure during the write or the flush is surfaced to the caller
as the corresponding write-failure error. -/
theorem write_pty_contract (env : WriteEnv) (st : PtyState) (data : String) :
    ((write_pty env st data).1 = Except.error "No PTY session active" ↔
      st.writer = none) ∧
    (st.writer.isSome = true → env.writeAll = Except.ok () →
      env.flush = Except.ok () →
      write_pty env st data = (Except.ok (), [data])) ∧
    (∀ e, st.writer.isSome = true → env.writeAll = Except.error e →
      (write_pty env st data).1 = Except.error ("Failed to write to PTY: " ++ e)) ∧
    (∀ e, st.writer.isSome = true → env.writeAll = Except.ok () →
      env.flush = Except.error e →
      (write_pty env st data).1 = Except.error ("Failed to flush PTY: " ++ e)) := by
  unfold write_pty
  cases hw : st.writer with
  | none => simp
  | some w =>
    rcases ha : env.writeAll with e | u
    · simp [write_err_ne]
    · rcases hf : env.flush with e | u
      · simp [flush_err_ne]
      · simp

/-- Witness for C6: a successful write on an active session. -/
theorem write_pty_contract_witness :
    write_pty ⟨Except.ok (), Except.ok ()⟩ ⟨some 1, some 0, true⟩ "echo hi\n" =
      (Except.ok (), ["echo hi\n"]) :=
  (write_pty_contract ⟨Except.ok (), Except.ok ()⟩ ⟨some 1, some 0, true⟩
    "echo hi\n").2.1 rfl rfl rfl

lemma resolve_pty_command_unknown (bun d : String) (hd : Option String)
    (command : String) (args : List String) (h : command ≠ "claude") :
    resolve_pty_command bun d hd command args =
      { program := command, args := args, cwd := none } := by
  unfold resolve_pty_command
  split
  · exact absurd rfl h
  · rfl

/-- C7: `spawn_pty` opens the pseudo-terminal with the fixed 80×24
geometry; the known command `"claude"` is rewritten to run its resolved
cli.js script under the bundled bun runtime with the home directory as
working directory; every unrecognized command is spawned as given with its
original arguments. -/
theorem spawn_pty_resolution (env : PtySpawnEnv) (st : PtyState)
    (command : String) (args : List String) :
    (env.openpty = Except.ok () →
      (spawn_pty env st command args).2.2.1 =
        some { rows := 24, cols := 80, pixel_width := 0, pixel_height := 0 }) ∧
    ((spawn_pty env st command args).2.2.1 = none ∨
      (spawn_pty env st command args).2.2.1 =
        some { rows := 24, cols := 80, pixel_width := 0, pixel_height := 0 }) ∧
    (∀ bun, pty_bun env = Except.ok bun →
      resolve_pty_command bun env.data_dir env.home_dir "claude" args =
        { program := bun
          args := pathJoin (pathJoin (pathJoin (pathJoin env.data_dir
            "node_modules") "@anthropic-ai") "claude-code") "cli.js" :: args
          cwd := some (env.home_dir.getD "/") }) ∧
    (command ≠ "claude" →
      ∀ cmd, (spawn_pty env st command args).2.2.2 = some cmd →
        cmd = { program := command, args := args, cwd := none }) ∧
    (∀ cmd bun, (spawn_pty env st command args).2.2.2 = some cmd →
      pty_bun env = Except.ok bun →
      cmd = resolve_pty_command bun env.data_dir env.home_dir command args) := by
  refine ⟨?_, ?_, ?_, ?_, ?_⟩
  · intro ho
    unfold spawn_pty
    repeat' split
    all_goals simp_all
  · unfold spawn_pty
    repeat' split
    all_goals simp
  · intro bun hbun
    rfl
  · intro hne cmd hcmd
    unfold spawn_pty at hcmd
    repeat' split at hcmd
    all_goals simp_all [resolve_pty_command_unknown]
  · intro cmd bun hcmd hbun
    unfold spawn_pty at hcmd
    repeat' split at hcmd
    all_goals simp_all

/-- A PTY spawn environment with every platform step succeeding. -/
def ptyEnv0 : PtySpawnEnv :=
  { openpty := Except.ok ()
    current_exe := Except.ok "/app/yep"
    exe_parent := some "/app"
    windows := false
    data_dir := "/home/u/.yep-anywhere-desktop"
    home_dir := some "/home/u"
    spawn_command := Except.ok ()
    take_writer := Except.ok 1
    try_clone_reader := Except.ok 2 }

/-- Witness for C7: a concrete spawn requests the 80×24 geometry. -/
theorem spawn_pty_resolution_witness :
    (spawn_pty ptyEnv0 PtyState.new "bash" ["-l"]).2.2.1 =
      some { rows := 24, cols := 80, pixel_width := 0, pixel_height := 0 } :=
  (spawn_pty_resolution ptyEnv0 PtyState.new "bash" ["-l"]).1 rfl

/-- C8: `kill_pty` always succeeds; its only effects are clearing the
writer handle, clearing the master handle and setting `alive` to false; it
emits no notification and sends no termination signal to the child. -/
theorem kill_pty_only_clears (st : PtyState) :
    kill_pty st = (Except.ok (), PtyState.new, [], []) := rfl

end YepAnywhere
